import Mathlib

/-!
Shallow embedding of the AI-provider retry/fallback engine of
`backend/core/base.py`, the model-switch logic of
`backend/core/claude_provider.py` and `backend/core/gemini_provider.py`,
and the pydantic output validators of `backend/core/validation.py`,
together with theorems settling the behavioural claims about them.
-/

/-- `startsWithChars needle l` : `needle` is a prefix of `l` (character lists). -/
def startsWithChars : List Char → List Char → Bool
  | [], _ => true
  | _ :: _, [] => false
  | a :: as, b :: bs => a == b && startsWithChars as bs

/-- `occursIn needle l` : `needle` occurs as a contiguous run inside `l`.
Embeds Python's substring test `needle in l`. -/
def occursIn (needle : List Char) : List Char → Bool
  | [] => startsWithChars needle []
  | c :: rest => startsWithChars needle (c :: rest) || occursIn needle rest

/-- Python's `in` on strings: substring containment. -/
def strContains (haystack term : String) : Bool :=
  occursIn term.data haystack.data

/-- Python's `str.lower()` (ASCII case folding, which is all the code relies on). -/
def lowerStr (s : String) : String :=
  ⟨s.data.map Char.toLower⟩

/-- One entry of the `error_patterns` dict of `AIProvider._handle_api_error`:
name, list of trigger terms, and the `should_retry` flag stored with it. -/
structure ErrorPattern where
  name : String
  terms : List String
  shouldRetry : Bool

/-- The `error_patterns` dict of `_handle_api_error`, in insertion order.
The `timeout` entry's retry flag is computed from the current attempt,
exactly as the Python dict literal computes `attempt < max_retries`. -/
def error_patterns (attempt maxRetries : Nat) : List ErrorPattern :=
  [⟨"rate_limit", ["rate_limit", "quota", "billing", "payment"], true⟩,
   ⟨"authentication", ["authentication", "api_key", "unauthorized", "forbidden"], false⟩,
   ⟨"content_policy", ["content_policy", "harmful", "safety", "violation"], false⟩,
   ⟨"token_limit", ["token"], false⟩,
   ⟨"model_unavailable", ["model"], true⟩,
   ⟨"timeout", ["timeout", "deadline", "timed out"], decide (attempt < maxRetries)⟩]

/-- The `for error_type, (terms, should_retry, log_level) in error_patterns.items()`
loop of `_handle_api_error`, including the two `continue` escapes for
`token_limit` (needs `limit`/`exceeded` as well) and `model_unavailable`
(needs `not found`/`unavailable`/`not available` as well).  Falling off the
loop returns the default `(attempt < max_retries, "api_error")`. -/
def check_patterns (m : String) (attempt maxRetries : Nat) : List ErrorPattern → Bool × String
  | [] => (decide (attempt < maxRetries), "api_error")
  | p :: rest =>
    if p.terms.any (fun t => strContains m t) then
      if p.name == "token_limit" && !(["limit", "exceeded"].any (fun t => strContains m t)) then
        check_patterns m attempt maxRetries rest
      else if p.name == "model_unavailable" &&
          !(["not found", "unavailable", "not available"].any (fun t => strContains m t)) then
        check_patterns m attempt maxRetries rest
      else
        (p.shouldRetry, p.name)
    else
      check_patterns m attempt maxRetries rest

/-- `AIProvider._handle_api_error`: lowercases `str(error)` and scans the
pattern table; returns `(should_retry, error_type)`. -/
def handle_api_error (error : String) (attempt maxRetries : Nat) : Bool × String :=
  check_patterns (lowerStr error) attempt maxRetries (error_patterns attempt maxRetries)

/-- The classification as the specification words it: six categories tried in
order, first match wins, with `token_limit` and `model_unavailable` stated as
conjunctive conditions, and everything unmatched defaulting to `api_error`
retryable while attempts remain. -/
def classify_spec (error : String) (attempt maxRetries : Nat) : Bool × String :=
  let m := lowerStr error
  if ["rate_limit", "quota", "billing", "payment"].any (fun t => strContains m t) then
    (true, "rate_limit")
  else if ["authentication", "api_key", "unauthorized", "forbidden"].any (fun t => strContains m t) then
    (false, "authentication")
  else if ["content_policy", "harmful", "safety", "violation"].any (fun t => strContains m t) then
    (false, "content_policy")
  else if strContains m "token" && (["limit", "exceeded"].any (fun t => strContains m t)) then
    (false, "token_limit")
  else if strContains m "model" &&
      (["not found", "unavailable", "not available"].any (fun t => strContains m t)) then
    (true, "model_unavailable")
  else if ["timeout", "deadline", "timed out"].any (fun t => strContains m t) then
    (decide (attempt < maxRetries), "timeout")
  else
    (decide (attempt < maxRetries), "api_error")

/-- `AIProvider._get_retry_delay`: exponential backoff.  `base_wait_time` is a
Python float always multiplied by a power of two, which is exact in IEEE
arithmetic, so rationals embed it faithfully. -/
def get_retry_delay (attempt : Nat) (base_wait_time : ℚ) : ℚ :=
  base_wait_time * 2 ^ (attempt - 1)

/-- Observable outcome of `_execute_with_retry`: the returned text, the
`ValueError` raised for fatal categories, the exhaustion `Exception`, or the
sentinel `Exception` raised after the loop falls through. -/
inductive Outcome where
  | success (text : String)
  | valueError (msg : String)
  | exhausted (msg : String)
  | unexpected (msg : String)
deriving DecidableEq

/-- Observable side effects of `_execute_with_retry`, in the order they
happen: an invocation of `api_call_func` on a given attempt, a call to
`_switch_to_next_model` (with its result), and a `time.sleep`. -/
inductive Event where
  | apiCall (attempt : Nat)
  | modelSwitch (switched : Bool)
  | sleepFor (delay : ℚ)
deriving DecidableEq

/-- The `error_messages` dict used for the three fatal categories in
`_execute_with_retry`. -/
def fatal_message (errorType providerName : String) : String :=
  if errorType == "authentication" then
    "Invalid or expired " ++ providerName ++ " API key"
  else if errorType == "content_policy" then
    "Prompt violates " ++ providerName ++ "'s content policy"
  else
    "Prompt too long - reduce input text length"

/-- The `for attempt in range(1, max_retries + 1)` loop of
`AIProvider._execute_with_retry`, from the iteration `attempt` on.
`fn attempt s` is the behaviour of `api_call_func` on that invocation
(success text or exception message — the callable is an external collaborator,
so its behaviour is indexed by invocation number and provider state),
`switchFn` is `_switch_to_next_model` acting on the provider state `σ`.
Returns the outcome together with the trace of observable events. -/
def retry_attempts {σ : Type} (fn : Nat → σ → Except String String)
    (switchFn : σ → Bool × σ) (operation providerName : String)
    (maxRetries : Nat) (baseWaitTime : ℚ) (attempt : Nat) (s : σ) :
    Outcome × List Event :=
  if _h : maxRetries < attempt then
    (Outcome.unexpected ("Unexpected error in " ++ operation), [])
  else
    match fn attempt s with
    | Except.ok text => (Outcome.success text, [Event.apiCall attempt])
    | Except.error e =>
      let res := handle_api_error e attempt maxRetries
      if res.2 == "authentication" || res.2 == "content_policy" || res.2 == "token_limit" then
        (Outcome.valueError (fatal_message res.2 providerName), [Event.apiCall attempt])
      else if res.1 && decide (attempt < maxRetries) then
        let sw :=
          if res.2 == "model_unavailable" then
            let r := switchFn s
            ([Event.modelSwitch r.1], r.2)
          else ([], s)
        let delay := get_retry_delay attempt baseWaitTime
        let rest := retry_attempts fn switchFn operation providerName maxRetries
          baseWaitTime (attempt + 1) sw.2
        (rest.1, Event.apiCall attempt :: sw.1 ++ Event.sleepFor delay :: rest.2)
      else if maxRetries ≤ attempt then
        (Outcome.exhausted ("Failed to complete " ++ operation ++ " after " ++
          toString maxRetries ++ " attempts"), [Event.apiCall attempt])
      else
        let rest := retry_attempts fn switchFn operation providerName maxRetries
          baseWaitTime (attempt + 1) s
        (rest.1, Event.apiCall attempt :: rest.2)
  termination_by maxRetries + 1 - attempt
  decreasing_by all_goals omega

/-- `AIProvider._execute_with_retry`: run the retry loop from attempt 1. -/
def execute_with_retry {σ : Type} (operation : String)
    (fn : Nat → σ → Except String String) (maxRetries : Nat)
    (baseWaitTime : ℚ) (providerName : String) (switchFn : σ → Bool × σ)
    (s : σ) : Outcome × List Event :=
  retry_attempts fn switchFn operation providerName maxRetries baseWaitTime 1 s

/-- Number of `api_call_func` invocations recorded in a trace. -/
def callCount (trace : List Event) : Nat :=
  trace.countP fun ev => match ev with
    | Event.apiCall _ => true
    | _ => false

/-- Mutable state of a provider adapter that matters for model fallback:
the ordered fallback list and the current index
(`available_models` / `current_model_index`). -/
structure ProviderModelState where
  available_models : List String
  current_model_index : Nat

/-- `ClaudeProvider._switch_to_next_model`: scan `range(len(available_models))`
for the first index strictly beyond the current one; on success move there and
return `True`, otherwise return `False` leaving the state unchanged. -/
def claude_switch_to_next_model (st : ProviderModelState) : Bool × ProviderModelState :=
  match (List.range st.available_models.length).find?
      (fun i => st.current_model_index < i) with
  | some i => (true, { st with current_model_index := i })
  | none => (false, st)

/-- The scan of `GeminiProvider._switch_to_next_model` over the remaining
indices: on each candidate `i` beyond the current index the code first sets
`current_model_index = i` and then calls `_initialize_model()`; if that raises
(`initOk i = false`) it continues with the next candidate, keeping the already
advanced index. -/
def gemini_switch_loop (initOk : Nat → Bool) (idx : Nat) : List Nat → Bool × Nat
  | [] => (false, idx)
  | i :: rest =>
    if idx < i then
      if initOk i then (true, i)
      else gemini_switch_loop initOk i rest
    else gemini_switch_loop initOk idx rest

/-- `GeminiProvider._switch_to_next_model`, with `_initialize_model`'s success
on model index `i` abstracted as the oracle `initOk i` (the SDK call it makes
is an external collaborator). -/
def gemini_switch_to_next_model (initOk : Nat → Bool) (st : ProviderModelState) :
    Bool × ProviderModelState :=
  let r := gemini_switch_loop initOk st.current_model_index
    (List.range st.available_models.length)
  (r.1, { st with current_model_index := r.2 })

/-- Results of `n` successive calls of a switch function on a threaded state. -/
def iterateSwitch {α : Type} (f : α → Bool × α) : Nat → α → List Bool
  | 0, _ => []
  | n + 1, a => (f a).1 :: iterateSwitch f n (f a).2

/-- State after `n` successive calls of a switch function. -/
def iterateSwitchState {α : Type} (f : α → Bool × α) : Nat → α → α
  | 0, a => a
  | n + 1, a => iterateSwitchState f n (f a).2

/-- The character `U+007B` (opening curly brace). -/
def lbrace : Char := Char.ofNat 123

/-- The character `U+007D` (closing curly brace). -/
def rbrace : Char := Char.ofNat 125

/-- Matcher for the tail of the regex `\x7b[^\x7b\x7d]*(?:\x7b[^\x7b\x7d]*\x7d[^\x7b\x7d]*)*\x7d`
of `AIProvider._extract_json_from_response`, after the opening brace has been
consumed.  Because the character class excludes both braces, the regex is
deterministic: at nesting depth one a closing brace must end the match, an
opening brace must open the single allowed inner level, and at depth two an
opening brace can only fail the match — no backtracking alternative exists.
`inner` records whether we are inside the one allowed inner brace pair;
returns the matched characters (including the final closing brace). -/
def matchObjectTail : Bool → List Char → Option (List Char)
  | _, [] => none
  | inner, c :: rest =>
    if c == lbrace then
      if inner then none
      else (matchObjectTail true rest).map (fun m => c :: m)
    else if c == rbrace then
      if inner then (matchObjectTail false rest).map (fun m => c :: m)
      else some [c]
    else
      (matchObjectTail inner rest).map (fun m => c :: m)

/-- `re.search` with the pattern above: try every position left to right; a
match can only start at an opening brace. -/
def searchJson : List Char → Option (List Char)
  | [] => none
  | c :: rest =>
    if c == lbrace then
      match matchObjectTail false rest with
      | some m => some (c :: m)
      | none => searchJson rest
    else searchJson rest

/-- `AIProvider._extract_json_from_response`: return the regex match, or raise
`ValueError("No JSON object found in response")`. -/
def extract_json_from_response (response : String) : Except String String :=
  match searchJson response.data with
  | some m => Except.ok ⟨m⟩
  | none => Except.error "No JSON object found in response"

/-- JSON-like values as produced by `json.loads`: the data the validators of
`backend/core/validation.py` receive. -/
inductive JVal where
  | jnull
  | jbool (b : Bool)
  | jnum (q : ℚ)
  | jstr (s : String)
  | jarr (items : List JVal)
  | jobj (fields : List (String × JVal))

/-- First value bound to a key in an object (dict keys are unique). -/
def getField (fields : List (String × JVal)) (k : String) : Option JVal :=
  match fields with
  | [] => none
  | (k2, v) :: rest => if k2 == k then some v else getField rest k

/-- A required pydantic `str` field (`Field(...)`): missing or non-string
raises a validation error. -/
def requireStr (fields : List (String × JVal)) (k : String) : Except String String :=
  match getField fields k with
  | some (JVal.jstr s) => Except.ok s
  | some _ => Except.error ("field " ++ k ++ " is not a string")
  | none => Except.error ("field " ++ k ++ " required")

/-- An `Optional[str] = Field(None, ...)` pydantic field: missing or `None`
yields `none`, a string is accepted, anything else raises. -/
def optionalStr (fields : List (String × JVal)) (k : String) :
    Except String (Option String) :=
  match getField fields k with
  | none => Except.ok none
  | some JVal.jnull => Except.ok none
  | some (JVal.jstr s) => Except.ok (some s)
  | some _ => Except.error ("field " ++ k ++ " is not a string")

/-- An `Optional[float] = Field(None, ...)` pydantic field. -/
def optionalNum (fields : List (String × JVal)) (k : String) :
    Except String (Option ℚ) :=
  match getField fields k with
  | none => Except.ok none
  | some JVal.jnull => Except.ok none
  | some (JVal.jnum q) => Except.ok (some q)
  | some _ => Except.error ("field " ++ k ++ " is not a number")

/-- A `List[X] = Field(default_factory=list)` pydantic field: missing defaults
to the empty list, a JSON array validates every item, anything else raises. -/
def listField {α : Type} (fields : List (String × JVal)) (k : String)
    (item : JVal → Except String α) : Except String (List α) :=
  match getField fields k with
  | none => Except.ok []
  | some (JVal.jarr items) => items.mapM item
  | some _ => Except.error ("field " ++ k ++ " is not a list")

/-- `validation.WorkRequest`. -/
structure WorkRequest where
  title : String
  description : String
  status : String
  asset_id : Option String
  work_type_id : Option String
  assigned_to : Option String

/-- Constructing `WorkRequest(**item)`, i.e. pydantic validation of one work
request item. -/
def workRequestOfJson : JVal → Except String WorkRequest
  | JVal.jobj fields => do
    let t ← requireStr fields "title"
    let d ← requireStr fields "description"
    let s ← requireStr fields "status"
    let a ← optionalStr fields "asset_id"
    let w ← optionalStr fields "work_type_id"
    let g ← optionalStr fields "assigned_to"
    Except.ok ⟨t, d, s, a, w, g⟩
  | _ => Except.error "work request item is not an object"

/-- `validation.WorkOrder`. -/
structure WorkOrder where
  title : String
  description : String
  status : String
  asset_id : Option String
  work_type_id : Option String
  assigned_to : Option String
  comment : Option String
  user_query : Option String

/-- Pydantic validation of one work order item. -/
def workOrderOfJson : JVal → Except String WorkOrder
  | JVal.jobj fields => do
    let t ← requireStr fields "title"
    let d ← requireStr fields "description"
    let s ← requireStr fields "status"
    let a ← optionalStr fields "asset_id"
    let w ← optionalStr fields "work_type_id"
    let g ← optionalStr fields "assigned_to"
    let c ← optionalStr fields "comment"
    let u ← optionalStr fields "user_query"
    Except.ok ⟨t, d, s, a, w, g, c, u⟩
  | _ => Except.error "work order item is not an object"

/-- `validation.InspectionTask`. -/
structure InspectionTask where
  title : String
  description : String
  status : String
  asset_id : Option String
  assigned_to : Option String

/-- Pydantic validation of one inspection task item. -/
def inspectionTaskOfJson : JVal → Except String InspectionTask
  | JVal.jobj fields => do
    let t ← requireStr fields "title"
    let d ← requireStr fields "description"
    let s ← requireStr fields "status"
    let a ← optionalStr fields "asset_id"
    let g ← optionalStr fields "assigned_to"
    Except.ok ⟨t, d, s, a, g⟩
  | _ => Except.error "inspection task item is not an object"

/-- `validation.GeneralTask`. -/
structure GeneralTask where
  title : String
  description : String
  status : String
  assigned_to : Option String

/-- Pydantic validation of one general task item. -/
def generalTaskOfJson : JVal → Except String GeneralTask
  | JVal.jobj fields => do
    let t ← requireStr fields "title"
    let d ← requireStr fields "description"
    let s ← requireStr fields "status"
    let g ← optionalStr fields "assigned_to"
    Except.ok ⟨t, d, s, g⟩
  | _ => Except.error "general task item is not an object"

/-- `validation.WorkItemTriagingOutput`. -/
structure WorkItemTriagingOutput where
  work_requests : List WorkRequest
  work_orders : List WorkOrder
  inspection_tasks : List InspectionTask
  general_tasks : List GeneralTask

/-- Constructing `WorkItemTriagingOutput(**data)`: pydantic validation of a
classification result; missing lists default to empty. -/
def workItemTriagingOutputOfJson : JVal → Except String WorkItemTriagingOutput
  | JVal.jobj fields => do
    let wr ← listField fields "work_requests" workRequestOfJson
    let wo ← listField fields "work_orders" workOrderOfJson
    let it ← listField fields "inspection_tasks" inspectionTaskOfJson
    let gt ← listField fields "general_tasks" generalTaskOfJson
    Except.ok ⟨wr, wo, it, gt⟩
  | _ => Except.error "data is not an object"

/-- `validation.ClosingCommentOutput`. -/
structure ClosingCommentOutput where
  closing_comment : String
  actual_downtime_hours : Option ℚ

/-- Constructing `ClosingCommentOutput(**data)`. -/
def closingCommentOutputOfJson : JVal → Except String ClosingCommentOutput
  | JVal.jobj fields => do
    let c ← requireStr fields "closing_comment"
    let h ← optionalNum fields "actual_downtime_hours"
    Except.ok ⟨c, h⟩
  | _ => Except.error "data is not an object"

/-- `validation.validate_work_triaging_output`: try the schema, catch any
validation error and return a boolean. -/
def validate_work_triaging_output (data : JVal) (testId : String) : Bool :=
  match workItemTriagingOutputOfJson data with
  | Except.ok _ => true
  | Except.error _ => false

/-- `validation.validate_closing_comment_output`. -/
def validate_closing_comment_output (data : JVal) (testId : String) : Bool :=
  match closingCommentOutputOfJson data with
  | Except.ok _ => true
  | Except.error _ => false

/-- `validation.validate_output`: route on the output type, unknown types log
and return `False`. -/
def validate_output (data : JVal) (outputType : String) (testId : String) : Bool :=
  if outputType == "work_triaging" then
    validate_work_triaging_output data testId
  else if outputType == "closing_comment" then
    validate_closing_comment_output data testId
  else
    false

/-- Python's `'closing_comment' in data` on the parsed JSON value (the key
test only succeeds on a dict). -/
def hasKey (data : JVal) (k : String) : Bool :=
  match data with
  | JVal.jobj fields => (getField fields k).isSome
  | _ => false

/-- `AIProvider._validate_json_structure`: pick the schema by the presence of
the `closing_comment` key and run `validate_output`. -/
def validate_json_structure (data : JVal) : Bool :=
  let outputType := if hasKey data "closing_comment" then "closing_comment" else "work_triaging"
  validate_output data outputType "validation_check"

/-- `AIProvider._process_ai_response` (the audit file write and the logging
are external side effects and carry no data flow): extract the JSON substring,
parse it with `json.loads` (the `json` module is an external collaborator,
passed in as `parse`), and optionally validate the structure; any failing step
raises. -/
def process_ai_response (parse : String → Except String JVal) (response : String)
    (validateStructure : Bool) : Except String JVal := do
  let jsonText ← extract_json_from_response response
  let result ← parse jsonText
  if validateStructure && !(validate_json_structure result) then
    Except.error "Invalid JSON structure in response"
  else
    Except.ok result

/-- `ClaudeProvider.analyze_work_intent` / `GeminiProvider.analyze_work_intent`
after prompt construction: `apiResult` is the outcome of `_make_api_call`
(success text or the exception `_execute_with_retry` raised); the response is
processed with structure validation on, and every failure is re-raised to the
caller. -/
def analyze_work_intent (parse : String → Except String JVal)
    (apiResult : Except String String) : Except String JVal :=
  match apiResult with
  | Except.ok response => process_ai_response parse response true
  | Except.error e => Except.error e

/-- The soft default dict returned by `generate_closing_comment` on failure. -/
def closingCommentFallback : JVal :=
  JVal.jobj [("closing_comment", JVal.jstr "Error generating closing comment"),
             ("actual_downtime_hours", JVal.jnull)]

/-- `ClaudeProvider.generate_closing_comment` /
`GeminiProvider.generate_closing_comment` after prompt construction: process
the API result with structure validation off, and swallow any failure (API
error, retry exhaustion, JSON extraction or parsing failure) into the soft
default dict. -/
def generate_closing_comment (parse : String → Except String JVal)
    (apiResult : Except String String) : JVal :=
  match (match apiResult with
         | Except.ok response => process_ai_response parse response false
         | Except.error e => Except.error e) with
  | Except.ok r => r
  | Except.error _ => closingCommentFallback

/-- The full event trace of `_execute_with_retry` when every attempt from `a`
on fails with a failure retried with backoff: one API call per attempt, with a
sleep of exactly `base * 2 ^ (attempt - 1)` seconds between consecutive
attempts, up to attempt `mr`. -/
def backoffTrace (base : ℚ) (mr : Nat) (a : Nat) : List Event :=
  if mr ≤ a then [Event.apiCall a]
  else Event.apiCall a :: Event.sleepFor (base * 2 ^ (a - 1)) :: backoffTrace base mr (a + 1)
  termination_by mr - a
  decreasing_by omega

/-- The classification-schema instance the specification requires `validate`
to accept. -/
def goodClassification : JVal :=
  JVal.jobj
    [("work_requests", JVal.jarr
        [JVal.jobj [("title", JVal.jstr "t"), ("description", JVal.jstr "d"),
                    ("status", JVal.jstr "pending")]]),
     ("work_orders", JVal.jarr []),
     ("inspection_tasks", JVal.jarr []),
     ("general_tasks", JVal.jarr [])]

/-- The same instance with `status` removed from the work-request item, which
`validate` must reject. -/
def badClassification : JVal :=
  JVal.jobj
    [("work_requests", JVal.jarr
        [JVal.jobj [("title", JVal.jstr "t"), ("description", JVal.jstr "d")]]),
     ("work_orders", JVal.jarr []),
     ("inspection_tasks", JVal.jarr []),
     ("general_tasks", JVal.jarr [])]

/-- The loop-with-continue of `_handle_api_error` is the ordered
first-match-wins classifier of the specification (helper shared by several
proofs below). -/
theorem handle_api_error_eq_classify_spec (e : String) (a mr : Nat) :
    handle_api_error e a mr = classify_spec e a mr := by
  unfold handle_api_error classify_spec
  by_cases h1 : strContains (lowerStr e) "token" <;>
    by_cases h2 : strContains (lowerStr e) "limit" <;>
      by_cases h3 : strContains (lowerStr e) "exceeded" <;>
        by_cases h4 : strContains (lowerStr e) "model" <;>
          by_cases h5 : strContains (lowerStr e) "not found" <;>
            by_cases h6 : strContains (lowerStr e) "unavailable" <;>
              by_cases h7 : strContains (lowerStr e) "not available" <;>
                simp +decide [check_patterns, error_patterns, h1, h2, h3, h4, h5, h6, h7]

/-- The classification category does not depend on the attempt counters (only
the retry flag does). -/
theorem handle_api_error_snd_const (e : String) (a mr a2 mr2 : Nat) :
    (handle_api_error e a mr).2 = (handle_api_error e a2 mr2).2 := by
  rw [handle_api_error_eq_classify_spec, handle_api_error_eq_classify_spec]
  simp only [classify_spec]
  split_ifs <;> rfl

/-- A message classified `api_error` is retryable exactly while attempts
remain. -/
theorem handle_api_error_generic (e : String) (a mr : Nat)
    (h : (handle_api_error e 1 1).2 = "api_error") :
    handle_api_error e a mr = (decide (a < mr), "api_error") := by
  rw [handle_api_error_eq_classify_spec] at *
  simp only [classify_spec] at *
  split_ifs at h ⊢ <;> simp_all

/-- A message containing `rate_limit` is always classified `rate_limit`,
retryable. -/
theorem handle_api_error_rate_limit (e : String) (a mr : Nat)
    (h : strContains (lowerStr e) "rate_limit" = true) :
    handle_api_error e a mr = (true, "rate_limit") := by
  rw [handle_api_error_eq_classify_spec]
  simp only [classify_spec]
  simp [h]

/-- A message containing `unauthorized` and no rate-limit term is classified
`authentication`, non-retryable. -/
theorem handle_api_error_unauthorized (e : String) (a mr : Nat)
    (hu : strContains (lowerStr e) "unauthorized" = true)
    (h1 : strContains (lowerStr e) "rate_limit" = false)
    (h2 : strContains (lowerStr e) "quota" = false)
    (h3 : strContains (lowerStr e) "billing" = false)
    (h4 : strContains (lowerStr e) "payment" = false) :
    handle_api_error e a mr = (false, "authentication") := by
  rw [handle_api_error_eq_classify_spec]
  simp only [classify_spec]
  simp [hu, h1, h2, h3, h4]

theorem callCount_nil : callCount [] = 0 := rfl

theorem callCount_cons_api (a : Nat) (t : List Event) :
    callCount (Event.apiCall a :: t) = callCount t + 1 := by
  simp [callCount, List.countP_cons]

theorem callCount_cons_sleep (d : ℚ) (t : List Event) :
    callCount (Event.sleepFor d :: t) = callCount t := by
  simp [callCount, List.countP_cons]

theorem callCount_cons_switch (b : Bool) (t : List Event) :
    callCount (Event.modelSwitch b :: t) = callCount t := by
  simp [callCount, List.countP_cons]

/-- Engine loop on a callable that always fails with a generic message:
starting from attempt `a = mr - k`, the loop ends in the exhaustion error and
performs one API call per remaining attempt. -/
theorem retry_generic_aux {σ : Type} (fn : Nat → σ → Except String String)
    (switchFn : σ → Bool × σ) (op pn : String) (mr : Nat) (base : ℚ) (msg : String)
    (hmsg : (handle_api_error msg 1 1).2 = "api_error")
    (hfn : ∀ k s, fn k s = Except.error msg) :
    ∀ (k a : Nat) (s : σ), a + k = mr → 1 ≤ a →
      (retry_attempts fn switchFn op pn mr base a s).1 =
        Outcome.exhausted ("Failed to complete " ++ op ++ " after " ++
          toString mr ++ " attempts") ∧
      callCount (retry_attempts fn switchFn op pn mr base a s).2 = k + 1 := by
  intro k
  induction k with
  | zero =>
    intro a s hk ha
    obtain rfl : a = mr := by omega
    have hclass := handle_api_error_generic msg a a hmsg
    unfold retry_attempts
    simp +decide [hfn, hclass, callCount_cons_api, callCount_nil]
  | succ k ih =>
    intro a s hk ha
    have hclass := handle_api_error_generic msg a mr hmsg
    have ha2 : a < mr := by omega
    obtain ⟨ih1, ih2⟩ := ih (a + 1) s (by omega) (by omega)
    unfold retry_attempts
    have hna : ¬ mr < a := by omega
    have hnb : ¬ mr ≤ a := by omega
    simp +decide [hfn, hclass, ha2, hna, hnb, callCount_cons_api, callCount_cons_sleep,
      ih1, ih2]

/-- Engine loop on a callable that always fails with a rate-limit message:
the full event trace is an API call per attempt with a sleep of exactly
`base * 2 ^ (attempt - 1)` between consecutive attempts, ending in the
exhaustion error. -/
theorem retry_rate_limit_aux {σ : Type} (fn : Nat → σ → Except String String)
    (switchFn : σ → Bool × σ) (op pn : String) (mr : Nat) (base : ℚ) (msg : String)
    (hrl : strContains (lowerStr msg) "rate_limit" = true)
    (hfn : ∀ k s, fn k s = Except.error msg) :
    ∀ (k a : Nat) (s : σ), a + k = mr → 1 ≤ a →
      retry_attempts fn switchFn op pn mr base a s =
        (Outcome.exhausted ("Failed to complete " ++ op ++ " after " ++
          toString mr ++ " attempts"), backoffTrace base mr a) := by
  intro k
  induction k with
  | zero =>
    intro a s hk ha
    obtain rfl : a = mr := by omega
    have hclass := handle_api_error_rate_limit msg a a hrl
    unfold retry_attempts backoffTrace
    simp +decide [hfn, hclass]
  | succ k ih =>
    intro a s hk ha
    have hclass := handle_api_error_rate_limit msg a mr hrl
    have ha2 : a < mr := by omega
    have ihres := ih (a + 1) s (by omega) (by omega)
    unfold retry_attempts backoffTrace
    have hna : ¬ mr < a := by omega
    have hnb : ¬ mr ≤ a := by omega
    simp +decide [hfn, hclass, ha2, hna, hnb, ihres, get_retry_delay]

/-- As long as the attempt bound is not yet exceeded, the loop body invokes
the callable for the current attempt first: the trace starts with that call. -/
theorem retry_first_call {σ : Type} (fn : Nat → σ → Except String String)
    (switchFn : σ → Bool × σ) (op pn : String) (mr : Nat) (base : ℚ)
    (a : Nat) (s : σ) (h : a ≤ mr) :
    ∃ t, (retry_attempts fn switchFn op pn mr base a s).2 = Event.apiCall a :: t := by
  unfold retry_attempts
  have hna : ¬ mr < a := by omega
  rcases hf : fn a s with e | txt <;> simp [hna, hf] <;> split_ifs <;> simp

/-- One loop iteration on a retryable, non-fatal failure: classify, switch
only for `model_unavailable`, sleep the backoff delay, then recurse into the
next attempt. -/
theorem retry_step_order {σ : Type} (fn : Nat → σ → Except String String)
    (switchFn : σ → Bool × σ) (op pn : String) (mr : Nat) (base : ℚ)
    (a : Nat) (s : σ) (e t : String)
    (ha : a < mr) (hfn : fn a s = Except.error e)
    (hclass : handle_api_error e a mr = (true, t))
    (hn1 : t ≠ "authentication") (hn2 : t ≠ "content_policy")
    (hn3 : t ≠ "token_limit") :
    retry_attempts fn switchFn op pn mr base a s =
      (let sw : List Event × σ :=
        if t == "model_unavailable" then ([Event.modelSwitch (switchFn s).1], (switchFn s).2)
        else ([], s)
      let rest := retry_attempts fn switchFn op pn mr base (a + 1) sw.2
      (rest.1, Event.apiCall a :: sw.1 ++ Event.sleepFor (get_retry_delay a base) :: rest.2)) := by
  conv_lhs => rw [retry_attempts]
  have hna : ¬ mr < a := by omega
  simp [hna, hfn, hclass, ha, hn1, hn2, hn3]

/-- `List.find?` over `List.range L` with the predicate `i < ·` finds `i + 1`
exactly when it is below `L`. -/
theorem find_gt_range (L i : Nat) :
    (List.range L).find? (fun j => decide (i < j)) =
      if i + 1 < L then some (i + 1) else none := by
  induction L with
  | zero => simp
  | succ L ih =>
    rw [List.range_succ, List.find?_append, ih]
    by_cases h1 : i + 1 < L
    · have h2 : i + 1 < L + 1 := by omega
      simp [h1, h2]
    · by_cases h2 : i < L
      · have h3 : i + 1 = L := by omega
        have h4 : i + 1 < L + 1 := by omega
        simp [h1, h2, h4, h3]
      · have h4 : ¬ i + 1 < L + 1 := by omega
        simp [h1, h2, h4]

/-- Closed form of `ClaudeProvider._switch_to_next_model`: advance to the next
index when one exists, else report failure. -/
theorem claude_switch_eq (st : ProviderModelState) :
    claude_switch_to_next_model st =
      if st.current_model_index + 1 < st.available_models.length then
        (true, { st with current_model_index := st.current_model_index + 1 })
      else (false, st) := by
  unfold claude_switch_to_next_model
  rw [find_gt_range]
  split_ifs <;> rfl

/-- Iterating the Claude switch: the `k`-th call (counting from 0) succeeds
exactly while the index it starts from has a successor in the list. -/
theorem claude_iterate (models : List String) (s N : Nat) :
    iterateSwitch claude_switch_to_next_model N ⟨models, s⟩ =
      (List.range N).map (fun k => decide (s + k + 1 < models.length)) := by
  induction N generalizing s with
  | zero => rfl
  | succ N ih =>
    rw [List.range_succ_eq_map]
    simp only [iterateSwitch, claude_switch_eq, List.map_cons, List.map_map]
    by_cases h : s + 1 < models.length
    · rw [if_pos h]
      congr 1
      · rw [eq_comm, decide_eq_true_eq]
        omega
      · rw [ih (s + 1)]
        apply List.map_congr_left
        intro k _
        simp only [Function.comp_apply, decide_eq_decide]
        omega
    · rw [if_neg h]
      congr 1
      · rw [eq_comm, decide_eq_false_iff_not]
        omega
      · rw [ih s]
        apply List.map_congr_left
        intro k _
        simp only [Function.comp_apply, decide_eq_decide]
        omega

/-- The Gemini switch scan never moves the index backwards, whatever
`_initialize_model` does. -/
theorem gemini_switch_loop_mono (initOk : Nat → Bool) (l : List Nat) :
    ∀ idx, idx ≤ (gemini_switch_loop initOk idx l).2 := by
  induction l with
  | nil =>
    intro idx
    simp [gemini_switch_loop]
  | cons i rest ih =>
    intro idx
    unfold gemini_switch_loop
    split_ifs with h1 h2
    · omega
    · have := ih i
      omega
    · exact ih idx

/-- When every `_initialize_model` call succeeds, the Gemini scan stops at the
first index beyond the current one. -/
theorem gemini_switch_loop_all_ok (idx : Nat) (l : List Nat) :
    gemini_switch_loop (fun _ => true) idx l =
      match l.find? (fun i => decide (idx < i)) with
      | some i => (true, i)
      | none => (false, idx) := by
  induction l with
  | nil => rfl
  | cons i rest ih =>
    unfold gemini_switch_loop
    by_cases h : idx < i
    · rw [List.find?_cons_of_pos _ (by simpa using h)]
      simp [h]
    · rw [List.find?_cons_of_neg _ (by simpa using h)]
      simp [h, ih]

/-- With `_initialize_model` always succeeding, Gemini's switch behaves
exactly like Claude's. -/
theorem gemini_switch_all_ok (st : ProviderModelState) :
    gemini_switch_to_next_model (fun _ => true) st = claude_switch_to_next_model st := by
  unfold gemini_switch_to_next_model claude_switch_to_next_model
  rw [gemini_switch_loop_all_ok]
  cases h : (List.range st.available_models.length).find?
      (fun i => decide (st.current_model_index < i)) <;> simp

/-- Iterating the Gemini switch when re-initialization always succeeds. -/
theorem gemini_iterate (models : List String) (s N : Nat) :
    iterateSwitch (gemini_switch_to_next_model (fun _ => true)) N ⟨models, s⟩ =
      (List.range N).map (fun k => decide (s + k + 1 < models.length)) := by
  have hfun : gemini_switch_to_next_model (fun _ => true) = claude_switch_to_next_model :=
    funext gemini_switch_all_ok
  rw [hfun, claude_iterate]

/-- The Claude switch never moves the index backwards. -/
theorem claude_switch_mono (st : ProviderModelState) :
    st.current_model_index ≤ (claude_switch_to_next_model st).2.current_model_index := by
  rw [claude_switch_eq]
  split_ifs <;> simp

/-- The Gemini switch never moves the index backwards. -/
theorem gemini_switch_mono (initOk : Nat → Bool) (st : ProviderModelState) :
    st.current_model_index ≤ (gemini_switch_to_next_model initOk st).2.current_model_index := by
  unfold gemini_switch_to_next_model
  exact gemini_switch_loop_mono initOk _ st.current_model_index

/-- A text without any opening brace has no regex match. -/
theorem searchJson_no_lbrace (l : List Char) (h : lbrace ∉ l) : searchJson l = none := by
  induction l with
  | nil => rfl
  | cons c rest ih =>
    simp only [List.mem_cons, not_or] at h
    obtain ⟨h1, h2⟩ := h
    have hc : (c == lbrace) = false := by
      simp only [beq_eq_false_iff_ne, ne_eq]
      intro hcc
      exact h1 hcc.symm
    unfold searchJson
    simp [hc, ih h2]

/-- A response without any opening brace makes `_extract_json_from_response`
raise the "no JSON object found" error. -/
theorem extract_json_no_lbrace (s : String) (h : lbrace ∉ s.data) :
    extract_json_from_response s = Except.error "No JSON object found in response" := by
  unfold extract_json_from_response
  rw [searchJson_no_lbrace s.data h]

/-- C2: `_handle_api_error` classifies every exception message by ordered
first-match-wins pattern matching over the six categories with exactly the
stated terms, conjunctive extra conditions for `token_limit` and
`model_unavailable`, the stated retryability per category, and the
`api_error` default retryable exactly while attempts remain. -/
theorem claim_C2_ordered_classification (e : String) (attempt maxRetries : Nat) :
    handle_api_error e attempt maxRetries = classify_spec e attempt maxRetries :=
  handle_api_error_eq_classify_spec e attempt maxRetries

/-- C1: on a callable failing every invocation with a generic (unclassified)
message, `_execute_with_retry` with `maxRetries ≥ 1` performs exactly
`maxRetries` calls and raises the exhaustion error naming the operation and
the attempt count. -/
theorem claim_C1_generic_failure_exhaustion {σ : Type}
    (fn : Nat → σ → Except String String) (switchFn : σ → Bool × σ)
    (op pn msg : String) (mr : Nat) (base : ℚ) (s : σ)
    (hmr : 1 ≤ mr)
    (hmsg : (handle_api_error msg 1 1).2 = "api_error")
    (hfn : ∀ k s2, fn k s2 = Except.error msg) :
    (execute_with_retry op fn mr base pn switchFn s).1 =
      Outcome.exhausted ("Failed to complete " ++ op ++ " after " ++
        toString mr ++ " attempts") ∧
    callCount (execute_with_retry op fn mr base pn switchFn s).2 = mr := by
  obtain ⟨h1, h2⟩ := retry_generic_aux fn switchFn op pn mr base msg hmsg hfn
    (mr - 1) 1 s (by omega) (by omega)
  unfold execute_with_retry
  exact ⟨h1, by rw [h2]; omega⟩

theorem claim_C1_generic_failure_exhaustion_witness :
    (execute_with_retry "ANALYZE_WORK_INTENT"
        (fun _ _ => (Except.error "boom" : Except String String)) 3 1 "Claude"
        (fun s : Unit => (false, s)) ()).1 =
      Outcome.exhausted ("Failed to complete " ++ "ANALYZE_WORK_INTENT" ++ " after " ++
        toString 3 ++ " attempts") ∧
    callCount (execute_with_retry "ANALYZE_WORK_INTENT"
        (fun _ _ => (Except.error "boom" : Except String String)) 3 1 "Claude"
        (fun s : Unit => (false, s)) ()).2 = 3 :=
  claim_C1_generic_failure_exhaustion (fun _ _ => Except.error "boom")
    (fun s => (false, s)) "ANALYZE_WORK_INTENT" "Claude" "boom" 3 1 ()
    (by omega) (by decide) (fun _ _ => rfl)

/-- C10: with `max_retries = 0` the loop body never runs: no call to the
callable at all, and the sentinel "Unexpected error in {operation}" is raised
instead of the exhaustion error; the callable is invoked at least once exactly
when `max_retries ≥ 1`. -/
theorem claim_C10_zero_retries_sentinel {σ : Type}
    (fn : Nat → σ → Except String String) (switchFn : σ → Bool × σ)
    (op pn : String) (base : ℚ) (s : σ) :
    execute_with_retry op fn 0 base pn switchFn s =
      (Outcome.unexpected ("Unexpected error in " ++ op), []) ∧
    callCount (execute_with_retry op fn 0 base pn switchFn s).2 = 0 ∧
    (∀ mr : Nat, 1 ≤ mr →
      1 ≤ callCount (execute_with_retry op fn mr base pn switchFn s).2) := by
  have h0 : execute_with_retry op fn 0 base pn switchFn s =
      (Outcome.unexpected ("Unexpected error in " ++ op), []) := by
    unfold execute_with_retry
    rw [retry_attempts]
    simp
  refine ⟨h0, by rw [h0]; rfl, ?_⟩
  intro mr hmr
  obtain ⟨t, ht⟩ := retry_first_call fn switchFn op pn mr base 1 s (by omega)
  unfold execute_with_retry
  rw [ht, callCount_cons_api]
  omega

theorem claim_C10_zero_retries_sentinel_witness :
    execute_with_retry "OP" (fun _ _ => (Except.ok "fine" : Except String String))
        0 1 "Gemini" (fun s : Unit => (false, s)) () =
      (Outcome.unexpected ("Unexpected error in " ++ "OP"), []) ∧
    callCount (execute_with_retry "OP" (fun _ _ => (Except.ok "fine" : Except String String))
        0 1 "Gemini" (fun s : Unit => (false, s)) ()).2 = 0 ∧
    1 ≤ callCount (execute_with_retry "OP"
        (fun _ _ => (Except.ok "fine" : Except String String))
        3 1 "Gemini" (fun s : Unit => (false, s)) ()).2 :=
  ⟨(claim_C10_zero_retries_sentinel _ _ "OP" "Gemini" 1 ()).1,
   (claim_C10_zero_retries_sentinel _ _ "OP" "Gemini" 1 ()).2.1,
   (claim_C10_zero_retries_sentinel _ _ "OP" "Gemini" 1 ()).2.2 3 (by omega)⟩

/-- C3 counterexample: the message "rate_limit unauthorized" contains the
substring "unauthorized", yet `_handle_api_error` classifies it `rate_limit`
(retryable), not `authentication`, because the rate-limit pattern is checked
first; and on it `_execute_with_retry` sleeps and retries instead of raising
immediately. -/
theorem claim_C3_counterexample :
    strContains (lowerStr "rate_limit unauthorized") "unauthorized" = true ∧
    handle_api_error "rate_limit unauthorized" 1 3 = (true, "rate_limit") ∧
    (handle_api_error "rate_limit unauthorized" 1 3).2 ≠ "authentication" ∧
    (execute_with_retry "OP"
        (fun _ _ => (Except.error "rate_limit unauthorized" : Except String String))
        2 1 "Claude" (fun s : Unit => (false, s)) ()).2 =
      [Event.apiCall 1, Event.sleepFor 1, Event.apiCall 2] := by
  refine ⟨by decide, by decide, by decide, ?_⟩
  have h := retry_rate_limit_aux
    (fun _ _ => (Except.error "rate_limit unauthorized" : Except String String))
    (fun s : Unit => (false, s)) "OP" "Claude" 2 1 "rate_limit unauthorized"
    (by decide) (fun _ _ => rfl) 1 1 () (by omega) (by omega)
  unfold execute_with_retry
  rw [h]
  rw [backoffTrace, backoffTrace]
  norm_num

/-- C3 (amended): for every error message containing "unauthorized" and none
of the earlier-checked rate-limit terms (rate_limit/quota/billing/payment),
the classification is `authentication` and `_execute_with_retry` raises the
"Invalid or expired {provider} API key" message at once — a single API call,
no sleep, no model switch. -/
theorem claim_C3_unauthorized_raises_immediately {σ : Type}
    (fn : Nat → σ → Except String String) (switchFn : σ → Bool × σ)
    (op pn msg : String) (mr : Nat) (base : ℚ) (s : σ)
    (hmr : 1 ≤ mr)
    (hu : strContains (lowerStr msg) "unauthorized" = true)
    (h1 : strContains (lowerStr msg) "rate_limit" = false)
    (h2 : strContains (lowerStr msg) "quota" = false)
    (h3 : strContains (lowerStr msg) "billing" = false)
    (h4 : strContains (lowerStr msg) "payment" = false)
    (hfn : fn 1 s = Except.error msg) :
    handle_api_error msg 1 mr = (false, "authentication") ∧
    execute_with_retry op fn mr base pn switchFn s =
      (Outcome.valueError ("Invalid or expired " ++ pn ++ " API key"),
       [Event.apiCall 1]) := by
  have hclass := handle_api_error_unauthorized msg 1 mr hu h1 h2 h3 h4
  refine ⟨hclass, ?_⟩
  unfold execute_with_retry
  rw [retry_attempts]
  have hna : ¬ mr < 1 := by omega
  simp +decide [hna, hfn, hclass, fatal_message]

theorem claim_C3_unauthorized_raises_immediately_witness :
    handle_api_error "unauthorized" 1 3 = (false, "authentication") ∧
    execute_with_retry "OP" (fun _ _ => (Except.error "unauthorized" : Except String String))
        3 1 "Claude" (fun s : Unit => (false, s)) () =
      (Outcome.valueError ("Invalid or expired " ++ "Claude" ++ " API key"),
       [Event.apiCall 1]) :=
  claim_C3_unauthorized_raises_immediately
    (fun _ _ => Except.error "unauthorized") (fun s => (false, s)) "OP" "Claude"
    "unauthorized" 3 1 () (by omega) (by decide) (by decide) (by decide)
    (by decide) (by decide) rfl

/-- C4: the backoff delay computed by `_get_retry_delay` and slept before the
next attempt is exactly `baseDelay * 2 ^ (attempt - 1)`: on a callable that
keeps failing with a rate-limit message, the whole trace interleaves one API
call per attempt with sleeps of `base`, `2·base`, `4·base`, … between
consecutive attempts (`backoffTrace`). -/
theorem claim_C4_exponential_backoff {σ : Type}
    (fn : Nat → σ → Except String String) (switchFn : σ → Bool × σ)
    (op pn msg : String) (mr n : Nat) (base : ℚ) (s : σ)
    (hmr : 1 ≤ mr)
    (hrl : strContains (lowerStr msg) "rate_limit" = true)
    (hfn : ∀ k s2, fn k s2 = Except.error msg) :
    get_retry_delay n base = base * 2 ^ (n - 1) ∧
    execute_with_retry op fn mr base pn switchFn s =
      (Outcome.exhausted ("Failed to complete " ++ op ++ " after " ++
        toString mr ++ " attempts"), backoffTrace base mr 1) := by
  refine ⟨rfl, ?_⟩
  unfold execute_with_retry
  exact retry_rate_limit_aux fn switchFn op pn mr base msg hrl hfn
    (mr - 1) 1 s (by omega) (by omega)

theorem claim_C4_exponential_backoff_witness :
    get_retry_delay 2 1 = 1 * 2 ^ (2 - 1) ∧
    execute_with_retry "OP" (fun _ _ => (Except.error "rate_limit hit" : Except String String))
        3 1 "Gemini" (fun s : Unit => (false, s)) () =
      (Outcome.exhausted ("Failed to complete " ++ "OP" ++ " after " ++
        toString 3 ++ " attempts"), backoffTrace 1 3 1) :=
  ⟨(claim_C4_exponential_backoff (fun _ _ => Except.error "rate_limit hit")
      (fun s : Unit => (false, s)) "OP" "Gemini" "rate_limit hit" 3 2 1 ()
      (by omega) (by decide) (fun _ _ => rfl)).1,
   (claim_C4_exponential_backoff (fun _ _ => Except.error "rate_limit hit")
      (fun s : Unit => (false, s)) "OP" "Gemini" "rate_limit hit" 3 2 1 ()
      (by omega) (by decide) (fun _ _ => rfl)).2⟩

/-- C6: one iteration of the loop on a retryable, non-fatal failure happens in
exactly this order: the error is classified; only for `model_unavailable` a
model switch is performed; then the backoff sleep; then the next attempt — the
switch event (if any) precedes the sleep event, which precedes everything of
the next attempt. -/
theorem claim_C6_classify_switch_sleep_retry {σ : Type}
    (fn : Nat → σ → Except String String) (switchFn : σ → Bool × σ)
    (op pn : String) (mr : Nat) (base : ℚ) (a : Nat) (s : σ) (e t : String)
    (ha : a < mr) (hfn : fn a s = Except.error e)
    (hclass : handle_api_error e a mr = (true, t))
    (hn1 : t ≠ "authentication") (hn2 : t ≠ "content_policy")
    (hn3 : t ≠ "token_limit") :
    retry_attempts fn switchFn op pn mr base a s =
      (let sw : List Event × σ :=
        if t == "model_unavailable" then
          ([Event.modelSwitch (switchFn s).1], (switchFn s).2)
        else ([], s)
      let rest := retry_attempts fn switchFn op pn mr base (a + 1) sw.2
      (rest.1, Event.apiCall a :: sw.1 ++
        Event.sleepFor (get_retry_delay a base) :: rest.2)) :=
  retry_step_order fn switchFn op pn mr base a s e t ha hfn hclass hn1 hn2 hn3

theorem claim_C6_classify_switch_sleep_retry_witness :
    retry_attempts (fun _ _ => (Except.error "model xyz not found" : Except String String))
        (fun n : Nat => (true, n + 1)) "OP" "Claude" 2 1 1 0 =
      (let sw : List Event × Nat :=
        if "model_unavailable" == "model_unavailable" then
          ([Event.modelSwitch ((fun n : Nat => (true, n + 1)) 0).1],
           ((fun n : Nat => (true, n + 1)) 0).2)
        else ([], 0)
      let rest := retry_attempts
        (fun _ _ => (Except.error "model xyz not found" : Except String String))
        (fun n : Nat => (true, n + 1)) "OP" "Claude" 2 1 (1 + 1) sw.2
      (rest.1, Event.apiCall 1 :: sw.1 ++
        Event.sleepFor (get_retry_delay 1 1) :: rest.2)) :=
  claim_C6_classify_switch_sleep_retry
    (fun _ _ => Except.error "model xyz not found") (fun n => (true, n + 1))
    "OP" "Claude" 2 1 1 0 "model xyz not found" "model_unavailable"
    (by omega) rfl (by decide) (by decide) (by decide) (by decide)

/-- C5: starting from index `s` in a fallback list of length `L`, the `k`-th
of `N` successive `_switch_to_next_model` calls (counting from 0) returns true
exactly while `s + k + 1 < L` — i.e. true for the first `L - 1 - s` calls
(the first `L - 1` calls for a fresh adapter) and false thereafter — for both
providers (Gemini under always-succeeding re-initialization), and neither
provider's switch ever decreases the current model index. -/
theorem claim_C5_one_directional_fallback (models : List String) (s N : Nat) :
    (iterateSwitch claude_switch_to_next_model N ⟨models, s⟩ =
      (List.range N).map (fun k => decide (s + k + 1 < models.length))) ∧
    (iterateSwitch (gemini_switch_to_next_model (fun _ => true)) N ⟨models, s⟩ =
      (List.range N).map (fun k => decide (s + k + 1 < models.length))) ∧
    (∀ st : ProviderModelState,
      st.current_model_index ≤ (claude_switch_to_next_model st).2.current_model_index) ∧
    (∀ (initOk : Nat → Bool) (st : ProviderModelState),
      st.current_model_index ≤
        (gemini_switch_to_next_model initOk st).2.current_model_index) :=
  ⟨claude_iterate models s N, gemini_iterate models s N,
   claude_switch_mono, gemini_switch_mono⟩

/-- C7: on `"prefix \x7b"a":1,"b":\x7b"c":2\x7d\x7d suffix"` the extractor
returns exactly the braced substring, and on any input without an opening
brace it raises the "no JSON object found" error. -/
theorem claim_C7_extract_json :
    extract_json_from_response "prefix \x7b\"a\":1,\"b\":\x7b\"c\":2\x7d\x7d suffix" =
      Except.ok "\x7b\"a\":1,\"b\":\x7b\"c\":2\x7d\x7d" ∧
    (∀ s : String, lbrace ∉ s.data →
      extract_json_from_response s = Except.error "No JSON object found in response") :=
  ⟨rfl, fun s h => extract_json_no_lbrace s h⟩

theorem claim_C7_extract_json_witness :
    extract_json_from_response "plain text with no json at all" =
      Except.error "No JSON object found in response" :=
  claim_C7_extract_json.2 "plain text with no json at all" (by decide)

/-- C8: `validate_output` always returns a boolean (any structural mismatch
becomes `false`, nothing propagates), accepts the specification's
classification example, and rejects it once `status` is removed from the
work-request item. -/
theorem claim_C8_validator_total_and_examples :
    (∀ (data : JVal) (kind testId : String),
      validate_output data kind testId = true ∨ validate_output data kind testId = false) ∧
    validate_output goodClassification "work_triaging" "check" = true ∧
    validate_output badClassification "work_triaging" "check" = false :=
  ⟨fun data kind testId => (validate_output data kind testId).eq_false_or_eq_true,
   by decide, by decide⟩

/-- C9: `generate_closing_comment` swallows every failing step (failed or
exhausted API call, JSON extraction failure, JSON parsing failure) into the
soft default `{closing_comment: "Error generating closing comment",
actual_downtime_hours: null}`, while `analyze_work_intent` propagates the
same failures to its caller. -/
theorem claim_C9_soft_default_vs_propagation (parse : String → Except String JVal) :
    (∀ e : String,
      generate_closing_comment parse (Except.error e) = closingCommentFallback) ∧
    (∀ s err : String, process_ai_response parse s false = Except.error err →
      generate_closing_comment parse (Except.ok s) = closingCommentFallback) ∧
    (∀ e : String,
      analyze_work_intent parse (Except.error e) = Except.error e) ∧
    (∀ s err : String, process_ai_response parse s true = Except.error err →
      analyze_work_intent parse (Except.ok s) = Except.error err) := by
  refine ⟨fun e => rfl, ?_, fun e => rfl, ?_⟩
  · intro s err h
    have hh : generate_closing_comment parse (Except.ok s) =
        match process_ai_response parse s false with
        | Except.ok r => r
        | Except.error _ => closingCommentFallback := rfl
    rw [hh, h]
  · intro s err h
    have hh : analyze_work_intent parse (Except.ok s) =
        process_ai_response parse s true := rfl
    rw [hh, h]

theorem claim_C9_soft_default_vs_propagation_witness :
    generate_closing_comment (fun _ => Except.error "invalid json")
        (Except.error "Failed to complete GENERATE_CLOSING_COMMENT after 3 attempts") =
      closingCommentFallback ∧
    generate_closing_comment (fun _ => Except.error "invalid json")
        (Except.ok "no braces in this reply") = closingCommentFallback ∧
    analyze_work_intent (fun _ => Except.error "invalid json")
        (Except.error "Invalid or expired Claude API key") =
      Except.error "Invalid or expired Claude API key" ∧
    analyze_work_intent (fun _ => Except.error "invalid json")
        (Except.ok "no braces in this reply") =
      Except.error "No JSON object found in response" :=
  ⟨(claim_C9_soft_default_vs_propagation (fun _ => Except.error "invalid json")).1 _,
   (claim_C9_soft_default_vs_propagation (fun _ => Except.error "invalid json")).2.1
     "no braces in this reply" "No JSON object found in response" rfl,
   (claim_C9_soft_default_vs_propagation (fun _ => Except.error "invalid json")).2.2.1 _,
   (claim_C9_soft_default_vs_propagation (fun _ => Except.error "invalid json")).2.2.2
     "no braces in this reply" "No JSON object found in response" rfl⟩
